import Mathlib

set_option autoImplicit false

/-!
Verification of the WhatsApp inbox repository core against its
natural-language specification.  The Python services are shallowly
embedded as executable Lean definitions: pure helpers become Lean
functions, MongoDB documents become association lists of BSON-like
values, and the behaviour of external collaborators (HTTP channel,
HMAC primitive, per-recipient environment) is passed in as explicit
function arguments.
-/

/-! ## Channel client: phone normalization (whatsapp.py, normalize_phone_number) -/

/--
Embedding of `WhatsAppService.normalize_phone_number`:
strip all non-digit characters; if exactly 10 digits remain, prepend the
default country code `"91"`.  Python's per-character `str.isdigit` is
modelled by `Char.isDigit` (the digits relevant to the country-code rule
are ASCII).
-/
def normalize_phone_number (phone : String) : String :=
  let cleaned := String.mk (phone.data.filter (fun c => c.isDigit))
  if cleaned.length = 10 then "91" ++ cleaned else cleaned

theorem string_mk_data (s : String) : String.mk s.data = s := by
  cases s
  rfl

theorem filter_digits_all {l : List Char} :
    ∀ c ∈ l.filter (fun c => c.isDigit), c.isDigit = true := by
  intro c hc
  exact (List.mem_filter.mp hc).2

theorem filter_digits_fixed {l : List Char}
    (h : ∀ c ∈ l, c.isDigit = true) : l.filter (fun c => c.isDigit) = l :=
  List.filter_eq_self.mpr h

/--
Claim C10: `normalize_phone_number` always returns a string made only of
digit characters, and it is idempotent, so the default country code is
never prefixed twice.
-/
theorem normalize_phone_number_digits_and_idem (phone : String) :
    (∀ c ∈ (normalize_phone_number phone).data, c.isDigit = true) ∧
    normalize_phone_number (normalize_phone_number phone) =
      normalize_phone_number phone := by
  unfold normalize_phone_number
  simp only [String.length]
  by_cases h : (String.mk (phone.data.filter (fun c => c.isDigit))).data.length = 10
  · simp only [h, if_pos, String.data_append]
    have hall : ∀ c ∈ ['9', '1'] ++ phone.data.filter (fun c => c.isDigit),
        c.isDigit = true := by
      intro c hc
      rcases List.mem_append.mp hc with hc | hc
      · simp only [List.mem_cons, List.mem_singleton, List.not_mem_nil, or_false] at hc
        rcases hc with rfl | rfl
        · rfl
        · rfl
      · exact filter_digits_all c hc
    constructor
    · exact hall
    · have hfix : (['9', '1'] ++ phone.data.filter (fun c => c.isDigit)).filter
          (fun c => c.isDigit) = ['9', '1'] ++ phone.data.filter (fun c => c.isDigit) :=
        filter_digits_fixed hall
      rw [hfix]
      have hf : (phone.data.filter (fun c => c.isDigit)).length = 10 := h
      have hlen : (['9', '1'] ++ phone.data.filter (fun c => c.isDigit)).length ≠ 10 := by
        simp only [List.length_append, List.length_cons, List.length_nil]
        omega
      simp only [hlen, if_neg, ite_false]
      rfl
  · simp only [h, if_neg, ite_false]
    constructor
    · intro c hc
      exact filter_digits_all c hc
    · have hfix : (String.mk (phone.data.filter (fun c => c.isDigit))).data.filter
          (fun c => c.isDigit) = phone.data.filter (fun c => c.isDigit) :=
        filter_digits_fixed filter_digits_all
    -- the second normalization filters an already-filtered list
      rw [hfix]
      simp only [h, if_neg, ite_false]

/-! ## Channel client: webhook signature verification (whatsapp.py, validate_webhook_signature) -/

/--
Embedding of `WhatsAppService.validate_webhook_signature`.
The HMAC-SHA256 hexdigest primitive from the Python standard library is
abstracted as the function argument `hmacSha256Hex` (secret, payload
bytes ↦ hex digest); the payload bytes are modelled as `List Nat`.
An absent signature header or absent shared secret is modelled as the
empty string, matching Python truthiness of `str`.  `hmac.compare_digest`
is equality comparison (its constant-time character is a timing property
outside the embedding).
-/
def validate_webhook_signature (hmacSha256Hex : String → List Nat → String)
    (appSecret : String) (payload : List Nat) (signature : String) : Bool :=
  if signature = "" ∨ appSecret = "" then
    false
  else
    decide ("sha256=" ++ hmacSha256Hex appSecret payload = signature)

/--
Claim C6: verification returns false (and never throws) when the
signature header or the shared secret is absent, and for present inputs
it returns true exactly when the header equals `"sha256="` followed by
the hex HMAC of the payload under the secret; consequently any change to
the signature, or any change to the payload that changes its MAC, flips
the result to false.
-/
theorem validate_webhook_signature_spec
    (hmacSha256Hex : String → List Nat → String)
    (appSecret : String) (payload : List Nat) (signature : String) :
    (signature = "" → validate_webhook_signature hmacSha256Hex appSecret payload signature = false) ∧
    (appSecret = "" → validate_webhook_signature hmacSha256Hex appSecret payload signature = false) ∧
    (validate_webhook_signature hmacSha256Hex appSecret payload signature = true ↔
      (signature ≠ "" ∧ appSecret ≠ "" ∧
        signature = "sha256=" ++ hmacSha256Hex appSecret payload)) ∧
    (∀ sig2, validate_webhook_signature hmacSha256Hex appSecret payload signature = true →
      sig2 ≠ signature →
      validate_webhook_signature hmacSha256Hex appSecret payload sig2 = false) ∧
    (∀ payload2, validate_webhook_signature hmacSha256Hex appSecret payload signature = true →
      hmacSha256Hex appSecret payload2 ≠ hmacSha256Hex appSecret payload →
      validate_webhook_signature hmacSha256Hex appSecret payload2 signature = false) := by
  constructor
  · intro hs
    unfold validate_webhook_signature
    simp [hs]
  constructor
  · intro hs
    unfold validate_webhook_signature
    simp [hs]
  have hiff : validate_webhook_signature hmacSha256Hex appSecret payload signature = true ↔
      (signature ≠ "" ∧ appSecret ≠ "" ∧
        signature = "sha256=" ++ hmacSha256Hex appSecret payload) := by
    unfold validate_webhook_signature
    by_cases habs : signature = "" ∨ appSecret = ""
    · simp only [habs, if_pos]
      constructor
      · intro hfalse
        exact absurd hfalse (by simp)
      · rintro ⟨hs, ha, _⟩
        rcases habs with h | h
        · exact absurd h hs
        · exact absurd h ha
    · push_neg at habs
      simp only [habs.1, habs.2, false_or, if_neg, not_false_iff, decide_eq_true_eq]
      constructor
      · intro heq
        exact ⟨habs.1, habs.2, heq.symm⟩
      · rintro ⟨_, _, heq⟩
        exact heq.symm
  refine ⟨hiff, ?_, ?_⟩
  · intro sig2 htrue hne
    have h := hiff.mp htrue
    by_contra hfalse
    have hsig2 : validate_webhook_signature hmacSha256Hex appSecret payload sig2 = true := by
      cases hres : validate_webhook_signature hmacSha256Hex appSecret payload sig2
      · exact absurd hres hfalse
      · rfl
    have h2 : sig2 = "sha256=" ++ hmacSha256Hex appSecret payload := by
      unfold validate_webhook_signature at hsig2
      by_cases habs : sig2 = "" ∨ appSecret = ""
      · simp [habs] at hsig2
      · simp only [habs, if_neg, not_false_iff, decide_eq_true_eq] at hsig2
        exact hsig2.symm
    exact hne (h2.trans h.2.2.symm)
  · intro payload2 htrue hne
    have h := hiff.mp htrue
    unfold validate_webhook_signature
    by_cases habs : signature = "" ∨ appSecret = ""
    · simp [habs]
    · simp only [habs, if_neg, not_false_iff, decide_eq_false_iff_not]
      intro heq
      apply hne
      have := h.2.2
      rw [this] at heq
      have happ := heq
      have h91 : ("sha256=" : String).data ++ (hmacSha256Hex appSecret payload2).data
          = ("sha256=" : String).data ++ (hmacSha256Hex appSecret payload).data := by
        have hd := congrArg String.data happ
        simpa [String.data_append] using hd
      have hdx := List.append_cancel_left h91
      have h1 := congrArg String.mk hdx
      rwa [string_mk_data, string_mk_data] at h1

/--
Witness for claim C6 at concrete inputs: a matching signature verifies,
an absent signature is rejected, and a non-matching signature is
rejected.
-/
theorem validate_webhook_signature_spec_witness :
    validate_webhook_signature (fun _ _ => "h") "s" [1] "sha256=h" = true ∧
    validate_webhook_signature (fun _ _ => "h") "s" [1] "" = false ∧
    validate_webhook_signature (fun _ _ => "h") "s" [1] "sha256=x" = false := by
  have hthm := validate_webhook_signature_spec (fun _ _ => "h") "s" [1] "sha256=h"
  have htrue : validate_webhook_signature (fun _ _ => "h") "s" [1] "sha256=h" = true :=
    hthm.2.2.1.mpr ⟨by decide, by decide, by decide⟩
  refine ⟨htrue, ?_, ?_⟩
  · exact (validate_webhook_signature_spec (fun _ _ => "h") "s" [1] "").1 rfl
  · exact hthm.2.2.2.1 "sha256=x" htrue (by decide)

/-! ## Channel client: send with retry (whatsapp.py, send_text_message and _make_request) -/

/--
Behaviour of the external channel on one HTTP attempt, as classified by
`_make_request`: the `requests.post` call may raise a timeout or a
connection error, or return a response with status 429 (rate-limited by
the provider), 200 (success, with the channel-assigned message id), or
any other status with a structured JSON error.
-/
inductive ChannelResponse where
  | timeout
  | connectionError
  | status429 (retryAfter : Nat)
  | status200 (messageId : String)
  | statusError (code : Nat) (message : String)

/--
The Python exceptions relevant to `_make_request` and to the tenacity
retry predicate: `requests.exceptions.Timeout`,
`requests.exceptions.ConnectionError`, `requests.exceptions.HTTPError`
(listed in the retry predicate but never raised, since
`raise_for_status` is never called), and `requests.exceptions.RetryError`
(raised by the 429 branch).
-/
inductive PyExc where
  | timeoutExc
  | connectionErrorExc
  | httpErrorExc
  | retryError (msg : String)

/-- Python `str(e)` for the exceptions above. -/
def PyExc.message : PyExc → String
  | .timeoutExc => "timeout"
  | .connectionErrorExc => "connection error"
  | .httpErrorExc => "http error"
  | .retryError m => m

/-- The result dictionary returned by `_make_request` and the send methods. -/
structure SendResult where
  success : Bool
  message_id : Option String
  error : Option String
  error_code : Option Nat
  deriving DecidableEq

/--
The `try` block of `_make_request`: a timeout or connection error from
`requests.post` propagates as an exception; a 429 response sleeps for
the provider-supplied retry-after and then raises
`requests.exceptions.RetryError("Rate limited")`; a 200 response yields
a success dictionary carrying the channel-assigned id; any other status
yields a failure dictionary with the JSON error message and code.
-/
def make_request_try (resp : ChannelResponse) : Except PyExc SendResult :=
  match resp with
  | .timeout => Except.error PyExc.timeoutExc
  | .connectionError => Except.error PyExc.connectionErrorExc
  | .status429 _ => Except.error (PyExc.retryError "Rate limited")
  | .status200 id => Except.ok ⟨true, some id, none, none⟩
  | .statusError code msg => Except.ok ⟨false, none, some msg, some code⟩

/--
Embedding of `_make_request` including its `except` chain: `Timeout` is
converted to a failure dictionary with error "Request timeout",
`ConnectionError` to "Connection error", and the final
`except Exception` converts every remaining exception (including the
`RetryError` raised by the 429 branch) to a failure dictionary with
`str(e)`.  Hence `_make_request` never lets an exception escape.
-/
def make_request (resp : ChannelResponse) : SendResult :=
  match make_request_try resp with
  | Except.ok r => r
  | Except.error PyExc.timeoutExc => ⟨false, none, some "Request timeout", none⟩
  | Except.error PyExc.connectionErrorExc => ⟨false, none, some "Connection error", none⟩
  | Except.error e => ⟨false, none, some e.message, none⟩

/-- The tenacity `retry_if_exception_type` predicate of `send_text_message`. -/
def retryableExc : PyExc → Bool
  | .timeoutExc => true
  | .connectionErrorExc => true
  | .httpErrorExc => true
  | .retryError _ => false

/--
One round of the tenacity retry loop: run the attempt; a normal return
is final; a raised exception is retried while the retryable-exception
predicate holds and attempts remain, otherwise it propagates.
`fuel` counts the retries still allowed after the current attempt.
-/
def tenacityGo (call : Nat → Except PyExc SendResult) :
    Nat → Nat → Except PyExc SendResult
  | attempt, 0 => call attempt
  | attempt, fuel + 1 =>
    match call attempt with
    | Except.ok r => Except.ok r
    | Except.error e =>
      if retryableExc e then tenacityGo call (attempt + 1) fuel
      else Except.error e

/--
The tenacity decorator `retry(stop=stop_after_attempt(maxAttempts), ...)`
applied to a call: attempt numbers start at 1; at most `maxAttempts`
attempts are made.  The backoff waits (`wait_exponential(multiplier=1,
min=2, max=10)`) occur between retried attempts and do not affect the
returned value, so they are not part of the value-level embedding.
-/
def tenacityRetry (maxAttempts : Nat) (call : Nat → Except PyExc SendResult) :
    Except PyExc SendResult :=
  match maxAttempts with
  | 0 => call 1
  | n + 1 => tenacityGo call 1 n

/--
Embedding of `send_text_message`: the decorated body first consults the
rate limiter (modelled by `acquire`, indexed by attempt number) and on
denial returns the 429 failure dictionary; otherwise it returns the
result of `_make_request` on that attempt's channel response.  The
tenacity decorator wraps the body with `stop_after_attempt(3)`.
Payload construction (recipient normalization, message body) does not
influence the control flow and is elided.
-/
def send_text_message (acquire : Nat → Bool) (responses : Nat → ChannelResponse) :
    Except PyExc SendResult :=
  tenacityRetry 3 (fun attempt =>
    if acquire attempt then Except.ok (make_request (responses attempt))
    else Except.ok ⟨false, none, some "Rate limit exceeded", some 429⟩)

/--
Claim C3: the claim fails on the code.  `_make_request` catches timeouts
and connection errors and converts them to failure dictionaries, and
never calls `raise_for_status`, so the decorated body never raises any
of the exception types the tenacity predicate retries on; the send
therefore always returns the first attempt's classification and never
retries.  In the claim's own scenario — transient failures on attempts
1 and 2 and success on attempt 3 — the result is the attempt-1 failure
dictionary, not a success carrying the attempt-3 id.
-/
theorem send_text_message_never_retries :
    (∀ responses : Nat → ChannelResponse,
      send_text_message (fun _ => true) responses =
        Except.ok (make_request (responses 1))) ∧
    send_text_message (fun _ => true)
        (fun i => if i = 1 ∨ i = 2 then ChannelResponse.timeout
                  else ChannelResponse.status200 "id3") =
      Except.ok ⟨false, none, some "Request timeout", none⟩ ∧
    make_request (ChannelResponse.status200 "id3") =
      ⟨true, some "id3", none, none⟩ := by
  refine ⟨?_, rfl, rfl⟩
  intro responses
  rfl

/-! ## Campaign dispatcher (bulk_sender.py, send_bulk_messages) -/

/--
Python `str.strip()`: drop leading and trailing whitespace.  Defined by
structural recursion over the character list so that it evaluates inside
the kernel.
-/
def pyStrip (s : String) : String :=
  String.mk (((s.data.dropWhile (fun c => c.isWhitespace)).reverse.dropWhile
    (fun c => c.isWhitespace)).reverse)

/--
A recipient row.  `contact.get('phone', '')` is modelled by the `phone`
field, with the empty string standing for an absent key; the remaining
row fields only feed message personalization and are not modelled.
-/
structure Contact where
  phone : String
  deriving DecidableEq

/--
The per-recipient behaviour of the environment inside the dispatch
loop's `try` block, indexed by the 1-based loop position:
`raisesBefore` — an exception before the channel send (personalization
or field access); `sendOk` / `sendFail` — the channel client returned a
success or failure dictionary; `raisesAfter` — an exception after the
channel send (the message-persistence insert).  Exceptions carry their
`str(e)` text.
-/
inductive SendStep where
  | raisesBefore (err : String)
  | sendOk (messageId : String)
  | sendFail (err : String)
  | raisesAfter (err : String)

/-- Whether a step raises before the channel client is invoked. -/
def SendStep.beforeSendRaises : SendStep → Bool
  | .raisesBefore _ => true
  | _ => false

/-- The campaign record (campaigns collection document). -/
structure Campaign where
  name : String
  total_contacts : Nat
  status : String
  successful_count : Option Nat
  failed_count : Option Nat
  deriving DecidableEq

/-- Embedding of `_create_campaign`: insert with status "running" and no counters. -/
def _create_campaign (name : String) (total_contacts : Nat) : Campaign :=
  { name := name, total_contacts := total_contacts, status := "running",
    successful_count := none, failed_count := none }

/--
Embedding of `_update_campaign`: terminal status is "completed" when at
least one recipient landed in either list, otherwise "failed"; the
stored counters are set to the two list lengths.
-/
def _update_campaign (c : Campaign) (successful failed : Nat) : Campaign :=
  { c with
    status := if successful + failed > 0 then "completed" else "failed",
    successful_count := some successful,
    failed_count := some failed }

/--
Mutable state of the dispatch loop: the running `successful` and
`failed` lists (failed entries keep the recorded error reason), plus an
instrumentation list `sends` recording, as (loop index, normalized
phone) pairs, every invocation of the channel client's send operation.
-/
structure BulkState where
  successful : List Contact
  failed : List (Contact × String)
  sends : List (Nat × String)

/--
One iteration of the dispatch loop of `send_bulk_messages`:
`phone = contact.get('phone', '').strip()`; an empty phone is recorded
as failed with reason "No phone number" and the channel is not called;
otherwise the channel client is invoked and the outcome (or a caught
per-recipient exception) appends to exactly one of the two lists.
-/
def bulkStep (env : Nat → SendStep) (st : BulkState) (index : Nat)
    (contact : Contact) : BulkState :=
  let phone := pyStrip contact.phone
  if phone = "" then
    { st with failed := st.failed ++ [(contact, "No phone number")] }
  else
    match env index with
    | .raisesBefore e => { st with failed := st.failed ++ [(contact, e)] }
    | .sendOk _ =>
      { st with successful := st.successful ++ [contact],
                sends := st.sends ++ [(index, phone)] }
    | .sendFail e =>
      { st with failed := st.failed ++ [(contact, e)],
                sends := st.sends ++ [(index, phone)] }
    | .raisesAfter e =>
      { st with failed := st.failed ++ [(contact, e)],
                sends := st.sends ++ [(index, phone)] }

/-- The dispatch loop, `for index, contact in enumerate(contacts, 1)`. -/
def bulkLoop (env : Nat → SendStep) : BulkState → Nat → List Contact → BulkState
  | st, _, [] => st
  | st, index, c :: rest => bulkLoop env (bulkStep env st index c) (index + 1) rest

/-- The dictionary returned by `send_bulk_messages`, plus the campaign record it wrote. -/
structure BulkResult where
  campaign : Campaign
  total : Nat
  successful : List Contact
  failed : List (Contact × String)
  sends : List (Nat × String)

/--
Embedding of `send_bulk_messages`: create the campaign record with
status "running", run the loop over the recipients in order, then
finalize the campaign record once with the two list lengths.  The
`message_template` argument only feeds personalization.
-/
def send_bulk_messages (contacts : List Contact) (campaign_name : String)
    (env : Nat → SendStep) : BulkResult :=
  let st := bulkLoop env ⟨[], [], []⟩ 1 contacts
  let c0 := _create_campaign campaign_name contacts.length
  { campaign := _update_campaign c0 st.successful.length st.failed.length,
    total := contacts.length,
    successful := st.successful,
    failed := st.failed,
    sends := st.sends }

/-- Closed form of the successful list produced by the loop from a given index. -/
def successfulOf (env : Nat → SendStep) : Nat → List Contact → List Contact
  | _, [] => []
  | index, c :: rest =>
    (if pyStrip c.phone = "" then []
     else match env index with
          | .sendOk _ => [c]
          | _ => []) ++ successfulOf env (index + 1) rest

/-- Closed form of the failed list produced by the loop from a given index. -/
def failedOf (env : Nat → SendStep) : Nat → List Contact → List (Contact × String)
  | _, [] => []
  | index, c :: rest =>
    (if pyStrip c.phone = "" then [(c, "No phone number")]
     else match env index with
          | .raisesBefore e => [(c, e)]
          | .sendOk _ => []
          | .sendFail e => [(c, e)]
          | .raisesAfter e => [(c, e)]) ++ failedOf env (index + 1) rest

/-- Closed form of the channel-send invocations recorded by the loop. -/
def sendsOf (env : Nat → SendStep) : Nat → List Contact → List (Nat × String)
  | _, [] => []
  | index, c :: rest =>
    (if pyStrip c.phone = "" then []
     else if (env index).beforeSendRaises then []
     else [(index, pyStrip c.phone)]) ++ sendsOf env (index + 1) rest

theorem bulkStep_closed (env : Nat → SendStep) (st : BulkState) (index : Nat)
    (c : Contact) :
    (bulkStep env st index c).successful
        = st.successful ++ successfulOf env index [c] ∧
    (bulkStep env st index c).failed = st.failed ++ failedOf env index [c] ∧
    (bulkStep env st index c).sends = st.sends ++ sendsOf env index [c] := by
  unfold bulkStep successfulOf failedOf sendsOf SendStep.beforeSendRaises
  by_cases h : pyStrip c.phone = ""
  · simp [h, successfulOf, failedOf, sendsOf]
  · cases henv : env index <;> simp [h, henv, successfulOf, failedOf, sendsOf]

theorem bulkLoop_closed (env : Nat → SendStep) (contacts : List Contact) :
    ∀ (st : BulkState) (index : Nat),
    (bulkLoop env st index contacts).successful
        = st.successful ++ successfulOf env index contacts ∧
    (bulkLoop env st index contacts).failed
        = st.failed ++ failedOf env index contacts ∧
    (bulkLoop env st index contacts).sends
        = st.sends ++ sendsOf env index contacts := by
  induction contacts with
  | nil => intro st index; simp [bulkLoop, successfulOf, failedOf, sendsOf]
  | cons c rest ih =>
    intro st index
    have hstep := bulkStep_closed env st index c
    have hrest := ih (bulkStep env st index c) (index + 1)
    refine ⟨?_, ?_, ?_⟩
    · rw [show bulkLoop env st index (c :: rest)
          = bulkLoop env (bulkStep env st index c) (index + 1) rest from rfl,
        hrest.1, hstep.1]
      simp [successfulOf, List.append_assoc]
    · rw [show bulkLoop env st index (c :: rest)
          = bulkLoop env (bulkStep env st index c) (index + 1) rest from rfl,
        hrest.2.1, hstep.2.1]
      simp [failedOf, List.append_assoc]
    · rw [show bulkLoop env st index (c :: rest)
          = bulkLoop env (bulkStep env st index c) (index + 1) rest from rfl,
        hrest.2.2, hstep.2.2]
      simp [sendsOf, List.append_assoc]

theorem closed_counts (env : Nat → SendStep) (contacts : List Contact) :
    ∀ index : Nat,
    (successfulOf env index contacts).length + (failedOf env index contacts).length
      = contacts.length := by
  induction contacts with
  | nil => intro index; simp [successfulOf, failedOf]
  | cons c rest ih =>
    intro index
    unfold successfulOf failedOf
    by_cases h : pyStrip c.phone = ""
    · simp only [h, if_pos, List.length_append, List.length_cons]
      have := ih (index + 1)
      simp only [List.length_nil, List.length_cons]
      omega
    · cases henv : env index <;>
        · simp only [h, henv, if_neg, ite_false, List.length_append, List.length_cons,
            List.length_nil, List.nil_append, List.singleton_append]
          have := ih (index + 1)
          omega

/--
Claim C4: after dispatch the successful and failed list lengths sum to
the number of recipients, and the campaign record's stored counters
equal those two lengths exactly.
-/
theorem send_bulk_messages_counts (contacts : List Contact)
    (campaign_name : String) (env : Nat → SendStep) :
    (send_bulk_messages contacts campaign_name env).successful.length
        + (send_bulk_messages contacts campaign_name env).failed.length
      = contacts.length ∧
    (send_bulk_messages contacts campaign_name env).campaign.successful_count
      = some (send_bulk_messages contacts campaign_name env).successful.length ∧
    (send_bulk_messages contacts campaign_name env).campaign.failed_count
      = some (send_bulk_messages contacts campaign_name env).failed.length ∧
    (send_bulk_messages contacts campaign_name env).total = contacts.length := by
  have hloop := bulkLoop_closed env contacts ⟨[], [], []⟩ 1
  have hcnt := closed_counts env contacts 1
  refine ⟨?_, rfl, rfl, rfl⟩
  show (bulkLoop env ⟨[], [], []⟩ 1 contacts).successful.length
      + (bulkLoop env ⟨[], [], []⟩ 1 contacts).failed.length = contacts.length
  rw [hloop.1, hloop.2.1]
  simpa using hcnt

theorem send_bulk_fields (contacts : List Contact) (campaign_name : String)
    (env : Nat → SendStep) :
    (send_bulk_messages contacts campaign_name env).successful
        = successfulOf env 1 contacts ∧
    (send_bulk_messages contacts campaign_name env).failed
        = failedOf env 1 contacts ∧
    (send_bulk_messages contacts campaign_name env).sends
        = sendsOf env 1 contacts := by
  have hloop := bulkLoop_closed env contacts ⟨[], [], []⟩ 1
  refine ⟨?_, ?_, ?_⟩
  · show (bulkLoop env ⟨[], [], []⟩ 1 contacts).successful = _
    rw [hloop.1]
    simp
  · show (bulkLoop env ⟨[], [], []⟩ 1 contacts).failed = _
    rw [hloop.2.1]
    simp
  · show (bulkLoop env ⟨[], [], []⟩ 1 contacts).sends = _
    rw [hloop.2.2]
    simp

/--
Claim C2 counterexample: the recipient whose phone field is `"123"`
(non-empty but with fewer than 10 digits) is passed to the channel
client — the send invocation list is non-empty — and it lands in the
successful list, not in the failed list, when the channel accepts it.
-/
theorem short_phone_reaches_channel :
    (send_bulk_messages [Contact.mk "123"] "camp"
        (fun _ => SendStep.sendOk "m1")).sends = [(1, "123")] ∧
    (send_bulk_messages [Contact.mk "123"] "camp"
        (fun _ => SendStep.sendOk "m1")).failed = [] ∧
    (send_bulk_messages [Contact.mk "123"] "camp"
        (fun _ => SendStep.sendOk "m1")).successful = [Contact.mk "123"] :=
  ⟨rfl, rfl, rfl⟩

theorem failedOf_empty_phone (env : Nat → SendStep) :
    ∀ (rest : List Contact) (index i : Nat) (h : i < rest.length),
    pyStrip (rest.get ⟨i, h⟩).phone = "" →
    (rest.get ⟨i, h⟩, "No phone number") ∈ failedOf env index rest := by
  intro rest
  induction rest with
  | nil => intro index i h; exact absurd h (by simp)
  | cons c tail ih =>
    intro index i h hphone
    cases i with
    | zero =>
      simp only [List.get] at hphone ⊢
      unfold failedOf
      rw [if_pos hphone]
      exact List.mem_append_left _ (List.mem_singleton.mpr rfl)
    | succ j =>
      simp only [List.get] at hphone ⊢
      unfold failedOf
      exact List.mem_append_right _
        (ih (index + 1) j (Nat.lt_of_succ_lt_succ h) hphone)

theorem sendsOf_index_ge (env : Nat → SendStep) :
    ∀ (rest : List Contact) (index : Nat) (q : Nat × String),
    q ∈ sendsOf env index rest → index ≤ q.1 := by
  intro rest
  induction rest with
  | nil => intro index q hq; simp [sendsOf] at hq
  | cons c tail ih =>
    intro index q hq
    unfold sendsOf at hq
    rcases List.mem_append.mp hq with hq | hq
    · by_cases h1 : pyStrip c.phone = ""
      · rw [if_pos h1] at hq
        simp at hq
      · rw [if_neg h1] at hq
        by_cases h2 : (env index).beforeSendRaises
        · rw [if_pos h2] at hq
          simp at hq
        · rw [if_neg h2] at hq
          rcases List.mem_singleton.mp hq with rfl
          exact Nat.le_refl index
    · exact Nat.le_of_succ_le (ih (index + 1) q hq)

theorem sendsOf_not_at_empty (env : Nat → SendStep) :
    ∀ (rest : List Contact) (index i : Nat) (h : i < rest.length),
    pyStrip (rest.get ⟨i, h⟩).phone = "" →
    ∀ p, (index + i, p) ∉ sendsOf env index rest := by
  intro rest
  induction rest with
  | nil => intro index i h; exact absurd h (by simp)
  | cons c tail ih =>
    intro index i h hphone p hmem
    unfold sendsOf at hmem
    cases i with
    | zero =>
      simp only [List.get] at hphone
      rw [if_pos hphone] at hmem
      simp only [List.nil_append] at hmem
      have := sendsOf_index_ge env tail (index + 1) (index + 0, p) hmem
      omega
    | succ j =>
      simp only [List.get] at hphone
      rcases List.mem_append.mp hmem with hmem | hmem
      · by_cases h1 : pyStrip c.phone = ""
        · rw [if_pos h1] at hmem
          simp at hmem
        · rw [if_neg h1] at hmem
          by_cases h2 : (env index).beforeSendRaises
          · rw [if_pos h2] at hmem
            simp at hmem
          · rw [if_neg h2] at hmem
            have h3 := List.mem_singleton.mp hmem
            have h4 : index + (j + 1) = index := congrArg Prod.fst h3
            omega
      · have heq : index + (j + 1) = (index + 1) + j := by omega
        rw [heq] at hmem
        exact ih (index + 1) j (Nat.lt_of_succ_lt_succ h) hphone p hmem

theorem sendsOf_at_nonempty (env : Nat → SendStep) :
    ∀ (rest : List Contact) (index i : Nat) (h : i < rest.length),
    pyStrip (rest.get ⟨i, h⟩).phone ≠ "" →
    (env (index + i)).beforeSendRaises = false →
    (index + i, pyStrip (rest.get ⟨i, h⟩).phone) ∈ sendsOf env index rest := by
  intro rest
  induction rest with
  | nil => intro index i h; exact absurd h (by simp)
  | cons c tail ih =>
    intro index i h hphone hnoraise
    unfold sendsOf
    cases i with
    | zero =>
      simp only [List.get] at hphone hnoraise ⊢
      rw [Nat.add_zero] at hnoraise ⊢
      rw [if_neg hphone, if_neg (by rw [hnoraise]; exact Bool.false_ne_true)]
      exact List.mem_append_left _ (List.mem_singleton.mpr rfl)
    | succ j =>
      simp only [List.get] at hphone hnoraise ⊢
      apply List.mem_append_right
      have heq : index + (j + 1) = (index + 1) + j := by omega
      rw [heq] at hnoraise ⊢
      exact ih (index + 1) j (Nat.lt_of_succ_lt_succ h) hphone hnoraise

/--
Claim C2 as amended: a recipient whose phone field is empty after
stripping whitespace is recorded in the failed list with reason
"No phone number" and the channel client send is never invoked for it
(so it consumes no rate-limiter token and no retry budget); but the
ten-digit validation of the claim does not exist in dispatch — any
recipient with a non-empty phone field is passed to the channel client
(unless a per-recipient exception precedes the send).  The digit-count
check lives only in the separate dry-run `validate_contacts`.
-/
theorem send_bulk_empty_phone_amended (contacts : List Contact)
    (campaign_name : String) (env : Nat → SendStep) (i : Nat)
    (h : i < contacts.length) :
    (pyStrip (contacts.get ⟨i, h⟩).phone = "" →
      ((contacts.get ⟨i, h⟩, "No phone number")
          ∈ (send_bulk_messages contacts campaign_name env).failed ∧
        ∀ p, (i + 1, p) ∉ (send_bulk_messages contacts campaign_name env).sends)) ∧
    (pyStrip (contacts.get ⟨i, h⟩).phone ≠ "" →
      (env (i + 1)).beforeSendRaises = false →
      (i + 1, pyStrip (contacts.get ⟨i, h⟩).phone)
          ∈ (send_bulk_messages contacts campaign_name env).sends) := by
  have hfields := send_bulk_fields contacts campaign_name env
  constructor
  · intro hphone
    constructor
    · rw [hfields.2.1]
      exact failedOf_empty_phone env contacts 1 i h hphone
    · intro p
      rw [hfields.2.2]
      have := sendsOf_not_at_empty env contacts 1 i h hphone p
      rwa [Nat.add_comm 1 i] at this
  · intro hphone hnoraise
    rw [hfields.2.2]
    have hnoraise2 : (env (1 + i)).beforeSendRaises = false := by
      rwa [Nat.add_comm 1 i]
    have := sendsOf_at_nonempty env contacts 1 i h hphone hnoraise2
    rwa [Nat.add_comm 1 i] at this

/--
Witness for the amended claim C2: in a two-recipient batch whose first
phone is blank and whose second is "123", the blank recipient is
recorded as failed with "No phone number" and never sent, while the
second is sent.
-/
theorem send_bulk_empty_phone_amended_witness :
    ((Contact.mk " ", "No phone number")
        ∈ (send_bulk_messages [Contact.mk " ", Contact.mk "123"] "camp"
            (fun _ => SendStep.sendOk "m1")).failed) ∧
    (∀ p, (1, p) ∉ (send_bulk_messages [Contact.mk " ", Contact.mk "123"] "camp"
            (fun _ => SendStep.sendOk "m1")).sends) ∧
    ((2, "123") ∈ (send_bulk_messages [Contact.mk " ", Contact.mk "123"] "camp"
            (fun _ => SendStep.sendOk "m1")).sends) := by
  have h1 := send_bulk_empty_phone_amended
    [Contact.mk " ", Contact.mk "123"] "camp" (fun _ => SendStep.sendOk "m1")
    0 (by decide)
  have h2 := send_bulk_empty_phone_amended
    [Contact.mk " ", Contact.mk "123"] "camp" (fun _ => SendStep.sendOk "m1")
    1 (by decide)
  have hempty := h1.1 rfl
  have hsent := h2.2 (by decide) rfl
  exact ⟨hempty.1, hempty.2, hsent⟩

/--
Claim C9: dispatch creates the campaign record with status "running"
before the loop and finalizes it exactly once afterwards; the terminal
status is "completed" exactly when at least one recipient was attempted
(successful + failed lengths positive, even if every attempt failed),
and "failed" exactly when the recipient list was empty.
-/
theorem campaign_lifecycle (contacts : List Contact) (campaign_name : String)
    (env : Nat → SendStep) :
    (_create_campaign campaign_name contacts.length).status = "running" ∧
    (send_bulk_messages contacts campaign_name env).campaign
      = _update_campaign (_create_campaign campaign_name contacts.length)
          (send_bulk_messages contacts campaign_name env).successful.length
          (send_bulk_messages contacts campaign_name env).failed.length ∧
    ((send_bulk_messages contacts campaign_name env).campaign.status = "completed" ↔
      0 < (send_bulk_messages contacts campaign_name env).successful.length
            + (send_bulk_messages contacts campaign_name env).failed.length) ∧
    ((send_bulk_messages contacts campaign_name env).campaign.status = "failed" ↔
      contacts = []) := by
  have hfields := send_bulk_fields contacts campaign_name env
  have hsum : (send_bulk_messages contacts campaign_name env).successful.length
      + (send_bulk_messages contacts campaign_name env).failed.length
      = contacts.length := by
    rw [hfields.1, hfields.2.1]
    exact closed_counts env contacts 1
  have hstat : (send_bulk_messages contacts campaign_name env).campaign.status
      = if (send_bulk_messages contacts campaign_name env).successful.length
          + (send_bulk_messages contacts campaign_name env).failed.length > 0
        then "completed" else "failed" := rfl
  refine ⟨rfl, rfl, ?_, ?_⟩
  · rw [hstat]
    by_cases hpos : (send_bulk_messages contacts campaign_name env).successful.length
        + (send_bulk_messages contacts campaign_name env).failed.length > 0
    · rw [if_pos hpos]
      simp [hpos]
    · rw [if_neg hpos]
      constructor
      · intro hx
        exact absurd hx (by decide)
      · intro hx
        exact absurd hx (by omega)
  · rw [hstat]
    by_cases hpos : (send_bulk_messages contacts campaign_name env).successful.length
        + (send_bulk_messages contacts campaign_name env).failed.length > 0
    · rw [if_pos hpos]
      constructor
      · intro hx
        exact absurd hx (by decide)
      · intro hx
        have hlen0 : contacts.length = 0 := by rw [hx]; rfl
        rw [hlen0] at hsum
        exact absurd hpos (by omega)
    · rw [if_neg hpos]
      have hlen : contacts.length = 0 := by omega
      simp [List.length_eq_zero.mp hlen]

/-! ## Conversation aggregator (inbox.py, _update_conversation) -/

/-- BSON-like values stored in MongoDB documents. -/
inductive BsonValue where
  | str (s : String)
  | int (n : Int)
  | bool (b : Bool)
  | time (t : Nat)
  | arr (xs : List BsonValue)
  | doc (fields : List (String × BsonValue))

/-- A MongoDB document: an ordered list of field name / value pairs. -/
abbrev Document := List (String × BsonValue)

/-- Whether a field name begins with a dollar sign. -/
def dollarPrefixedName (k : String) : Bool :=
  match k.data with
  | [] => false
  | c :: _ => c == '$'

/-- A classic MongoDB update document with `$set`, `$setOnInsert` and `$inc` operators. -/
structure MongoUpdate where
  set : Document
  setOnInsert : Document
  inc : List (String × Int)

/--
MongoDB validation of a classic update: every field path appearing as a
key inside an update operator's argument must not begin with a dollar
sign, otherwise the whole update is rejected with a write error
(the server's "dollar-prefixed field is not valid for storage" error).
-/
def mongoUpdateValid (u : MongoUpdate) : Bool :=
  !(u.set.any (fun kv => dollarPrefixedName kv.1) ||
    u.setOnInsert.any (fun kv => dollarPrefixedName kv.1) ||
    u.inc.any (fun kv => dollarPrefixedName kv.1))

/-- Set one field of a document, replacing an existing binding or appending. -/
def setField (d : Document) (k : String) (v : BsonValue) : Document :=
  if d.any (fun kv => kv.1 == k) then
    d.map (fun kv => if kv.1 == k then (k, v) else kv)
  else d ++ [(k, v)]

/-- `$inc` on one field: add to an existing integer field or create it. -/
def incField (d : Document) (k : String) (n : Int) : Document :=
  match d.find? (fun kv => kv.1 == k) with
  | some kv =>
    match kv.2 with
    | BsonValue.int m => d.map (fun p => if p.1 == k then (k, BsonValue.int (m + n)) else p)
    | _ => d
  | none => d ++ [(k, BsonValue.int n)]

/-- Apply a `$set` argument field by field. -/
def applySetFields (d : Document) (s : Document) : Document :=
  s.foldl (fun acc kv => setField acc kv.1 kv.2) d

/-- Apply an `$inc` argument field by field. -/
def applyIncFields (d : Document) (s : List (String × Int)) : Document :=
  s.foldl (fun acc kv => incField acc kv.1 kv.2) d

/-- The filter `{"user_id": uid}` on a document. -/
def matchesUserId (d : Document) (uid : String) : Bool :=
  match d.find? (fun kv => kv.1 == "user_id") with
  | some kv =>
    match kv.2 with
    | BsonValue.str s => s == uid
    | _ => false
  | none => false

/--
Semantics of `conversations.update_one({"user_id": uid}, u, upsert=True)`:
the update document is validated first (dollar-prefixed field paths in
operator arguments are rejected and the call raises); on a match,
`$set` then `$inc` are applied to the matching documents and
`$setOnInsert` is ignored; with no match, a new document is created
from the filter equality, the `$setOnInsert` fields, the `$set` fields
and the `$inc` fields.
-/
def update_one_upsert (store : List Document) (uid : String) (u : MongoUpdate) :
    Except String (List Document) :=
  if mongoUpdateValid u then
    if store.any (fun d => matchesUserId d uid) then
      Except.ok (store.map (fun d =>
        if matchesUserId d uid then applyIncFields (applySetFields d u.set) u.inc
        else d))
    else
      Except.ok (store ++ [applyIncFields
        (applySetFields (applySetFields [("user_id", BsonValue.str uid)] u.setOnInsert) u.set)
        u.inc])
  else
    Except.error "dollar-prefixed field path in update operator argument"

/-- Direction of a message record. -/
inductive MessageDirection where
  | inbound
  | outbound
  deriving DecidableEq

/-- The fields of a Message record that `_update_conversation` reads. -/
structure Message where
  user_id : String
  body : String
  timestamp : Nat
  direction : MessageDirection

/-- Direction as it is stored. -/
def directionString : MessageDirection → String
  | .inbound => "inbound"
  | .outbound => "outbound"

/-- The `$inc` dictionary the code builds: both counters for inbound, only the total for outbound. -/
def incPairs : MessageDirection → List (String × BsonValue)
  | .inbound => [("unread_count", BsonValue.int 1), ("total_messages", BsonValue.int 1)]
  | .outbound => [("total_messages", BsonValue.int 1)]

/--
The `conversation_data` dictionary of `_update_conversation`, exactly as
the code builds it: the last-message fields (body truncated to 500
characters), and then — this is the slip the code makes — the `"$inc"`
dictionary inserted as a key of this same dictionary, which the caller
passes as the argument of `"$set"`.
-/
def conversation_data (m : Message) (now : Nat) : Document :=
  [("user_id", BsonValue.str m.user_id),
   ("last_message", BsonValue.str (String.mk (m.body.data.take 500))),
   ("last_message_timestamp", BsonValue.time m.timestamp),
   ("last_message_direction", BsonValue.str (directionString m.direction)),
   ("updated_at", BsonValue.time now),
   ("$inc", BsonValue.doc (incPairs m.direction))]

/--
Embedding of `InboxService._update_conversation`: issue the upsert with
`$set` = `conversation_data` (which contains the nested `"$inc"` key)
and `$setOnInsert` = the seed fields; the surrounding
`try/except` swallows any error, leaving the store unchanged.
-/
def _update_conversation (store : List Document) (m : Message) (now : Nat) :
    List Document :=
  match update_one_upsert store m.user_id
      { set := conversation_data m now,
        setOnInsert := [("created_at", BsonValue.time now),
                        ("is_archived", BsonValue.bool false),
                        ("labels", BsonValue.arr [])],
        inc := [] } with
  | Except.ok s => s
  | Except.error _ => store

/-- Lookup of the conversation document for a counterparty. -/
def conversationFor (store : List Document) (uid : String) : Option Document :=
  store.find? (fun d => matchesUserId d uid)

theorem update_conversation_noop (store : List Document) (m : Message) (now : Nat) :
    _update_conversation store m now = store := rfl

/--
Claim C1: the claim fails on the code.  `_update_conversation` places
the `"$inc"` operator inside the dictionary that becomes the `"$set"`
argument, so the update is rejected by MongoDB (dollar-prefixed field
path), the exception is swallowed, and the conversation store is left
completely unchanged: `total_messages` and `unread_count` are never
incremented for any message.  The third conjunct shows that the
embedded update semantics do apply increments when the operator
document is well-formed, so the failure is the code's, not the model's.
-/
theorem update_conversation_never_increments :
    (∀ (store : List Document) (m : Message) (now : Nat),
      _update_conversation store m now = store) ∧
    conversationFor (_update_conversation []
        { user_id := "u1", body := "hello", timestamp := 5,
          direction := MessageDirection.inbound } 10) "u1" = none ∧
    update_one_upsert [] "u1"
        { set := [("last_message", BsonValue.str "hello")],
          setOnInsert := [("is_archived", BsonValue.bool false)],
          inc := [("unread_count", 1), ("total_messages", 1)] }
      = Except.ok [[("user_id", BsonValue.str "u1"),
                    ("is_archived", BsonValue.bool false),
                    ("last_message", BsonValue.str "hello"),
                    ("unread_count", BsonValue.int 1),
                    ("total_messages", BsonValue.int 1)]] :=
  ⟨fun store m now => update_conversation_noop store m now, rfl, rfl⟩

/--
Claim C8: the claim fails on the code.  Because the update document is
rejected in its entirety (the nested `"$inc"` key makes it invalid) and
the exception is swallowed, the first `applyMessage` for a counterparty
creates no conversation document at all — so no record with
`is_archived = false`, empty labels and a creation timestamp ever
exists, for any message and any store.
-/
theorem update_conversation_creates_nothing :
    (∀ (m : Message) (now : Nat),
      conversationFor (_update_conversation [] m now) m.user_id = none) ∧
    _update_conversation []
        { user_id := "u2", body := "hi", timestamp := 3,
          direction := MessageDirection.outbound } 7 = [] :=
  ⟨fun m now => by rw [update_conversation_noop]; rfl, rfl⟩

/-! ## Cache (mongodb_cache.py, MongoDBCache.get and MongoDBCache.set) -/

/-- A cache collection document: value plus the absolute expiry instant. -/
structure CacheDoc where
  value : String
  expires_at : Nat
  deriving DecidableEq

/--
Embedding of `MongoDBCache.set`: upsert on `_id = key` writing the value
and `expires_at = time.time() + ttl_seconds` (the clock is the explicit
`now` argument).
-/
def cache_set (store : List (String × CacheDoc)) (now : Nat) (key value : String)
    (ttl_seconds : Nat) : List (String × CacheDoc) :=
  if store.any (fun kv => kv.1 == key) then
    store.map (fun kv => if kv.1 == key then (key, ⟨value, now + ttl_seconds⟩) else kv)
  else
    store ++ [(key, ⟨value, now + ttl_seconds⟩)]

/--
Embedding of `MongoDBCache.get`: `find_one({"_id": key})` and return the
stored value when the document exists.  The code reads no clock and
never consults `expires_at`; the `now` argument (the clock at call time)
is therefore unused, exactly as in the source.
-/
def cache_get (store : List (String × CacheDoc)) (now : Nat) (key : String) :
    Option String :=
  (store.find? (fun kv => kv.1 == key)).map (fun kv => kv.2.value)

/--
Claim C5: the claim fails on the code.  `get` never reads `expires_at`
(its result is independent of the calling time), so an entry whose
stored expiry instant has passed but which is still physically present
is returned as a hit: a value set at time 0 with ttl 3600 is still
returned by a `get` at time 999999, where the claim requires absence.
-/
theorem cache_get_ignores_expiry :
    (∀ (store : List (String × CacheDoc)) (now1 now2 : Nat) (key : String),
      cache_get store now1 key = cache_get store now2 key) ∧
    (cache_set [] 0 "k" "v" 3600 = [("k", ⟨"v", 3600⟩)]) ∧
    cache_get (cache_set [] 0 "k" "v" 3600) 999999 "k" = some "v" ∧
    3600 < 999999 :=
  ⟨fun _ _ _ _ => rfl, rfl, rfl, by omega⟩

/-! ## Notification hub (connection_manager.py, ConnectionManager.broadcast) -/

/--
State and observations of one `broadcast` call: the subscriber set
afterwards, the subscribers whose delivery succeeded (each observed the
event), and the subscribers to whom delivery was attempted.  Subscriber
handles are modelled as naturals; whether `send_json` raises for a
handle is the environment function `sendOk`.
-/
structure BroadcastResult where
  active : List Nat
  delivered : List Nat
  attempted : List Nat
  deriving DecidableEq

/--
The delivery loop of `broadcast`: every subscriber in the set is tried;
a successful send is an observation of the event, a raising send puts
the subscriber in the dead set; the loop never aborts early.  Returns
(delivered, dead).
-/
def broadcastLoop (sendOk : Nat → Bool) : List Nat → List Nat × List Nat
  | [] => ([], [])
  | c :: rest =>
    let p := broadcastLoop sendOk rest
    if sendOk c then (c :: p.1, p.2) else (p.1, c :: p.2)

/--
Embedding of `ConnectionManager.broadcast`: an empty subscriber set
returns at once with no delivery attempted; otherwise every current
subscriber is tried, and afterwards each dead subscriber is discarded
from the set.
-/
def broadcast (conns : List Nat) (sendOk : Nat → Bool) : BroadcastResult :=
  if conns.isEmpty then
    { active := conns, delivered := [], attempted := [] }
  else
    let p := broadcastLoop sendOk conns
    { active := conns.filter (fun c => !(p.2.contains c)),
      delivered := p.1,
      attempted := conns }

theorem broadcastLoop_eq (sendOk : Nat → Bool) (conns : List Nat) :
    broadcastLoop sendOk conns
      = (conns.filter (fun c => sendOk c), conns.filter (fun c => !(sendOk c))) := by
  induction conns with
  | nil => rfl
  | cons c rest ih =>
    unfold broadcastLoop
    rw [ih]
    by_cases h : sendOk c
    · simp [h, List.filter_cons]
    · simp [h, List.filter_cons]

theorem contains_filter_not (sendOk : Nat → Bool) (conns : List Nat) (c : Nat)
    (h : sendOk c = true) :
    (conns.filter (fun x => !(sendOk x))).contains c = false := by
  induction conns with
  | nil => rfl
  | cons a rest ih =>
    rw [List.filter_cons]
    by_cases ha : sendOk a
    · simp only [ha, Bool.not_true, if_neg, Bool.false_eq_true, not_false_iff, ite_false]
      exact ih
    · have hfa : sendOk a = false := by
        cases hv : sendOk a
        · rfl
        · exact absurd hv ha
      have ha2 : (!(sendOk a)) = true := by rw [hfa]; rfl
      simp only [ha2, if_pos, ite_true]
      rw [List.contains_cons]
      have hne : (c == a) = false := by
        by_cases hca : c = a
        · rw [hca] at h
          rw [h] at ha
          exact absurd rfl ha
        · exact beq_false_of_ne hca
      rw [hne]
      simpa using ih

/--
Claim C7: `broadcast` attempts delivery to every current subscriber; a
subscriber whose delivery raises is removed from the set afterwards
while every non-raising subscriber observes the event and stays; and a
broadcast on an empty subscriber set returns at once with no delivery
performed.
-/
theorem broadcast_spec (conns : List Nat) (sendOk : Nat → Bool) :
    (broadcast conns sendOk).attempted = conns ∧
    (broadcast conns sendOk).delivered = conns.filter (fun c => sendOk c) ∧
    (broadcast conns sendOk).active = conns.filter (fun c => sendOk c) ∧
    broadcast [] sendOk = { active := [], delivered := [], attempted := [] } := by
  by_cases hempty : conns.isEmpty
  · have hnil : conns = [] := List.isEmpty_iff.mp hempty
    subst hnil
    exact ⟨rfl, rfl, rfl, rfl⟩
  · have hbody : broadcast conns sendOk
        = { active := conns.filter (fun c => !((broadcastLoop sendOk conns).2.contains c)),
            delivered := (broadcastLoop sendOk conns).1,
            attempted := conns } := by
      unfold broadcast
      rw [if_neg hempty]
    refine ⟨by rw [hbody], ?_, ?_, rfl⟩
    · rw [hbody]
      simp only
      rw [broadcastLoop_eq]
    · rw [hbody]
      simp only
      rw [broadcastLoop_eq]
      simp only
      apply List.filter_congr
      intro c hc
      by_cases h : sendOk c
      · rw [contains_filter_not sendOk conns c h]
        simp [h]
      · have hc2 : (conns.filter (fun x => !(sendOk x))).contains c = true := by
          rw [List.contains_eq_any_beq]
          apply List.any_eq_true.mpr
          refine ⟨c, ?_, by simp⟩
          apply List.mem_filter.mpr
          exact ⟨hc, by simp [h]⟩
        rw [hc2]
        simp [h]

/--
Witness for claim C10 at a concrete input: `"98765-43210"` normalizes to
an all-digit string (sampled at the character `'9'`, a member of the
result) and re-normalizing it changes nothing.
-/
theorem normalize_phone_number_digits_and_idem_witness :
    Char.isDigit '9' = true ∧
    normalize_phone_number (normalize_phone_number "98765-43210")
      = normalize_phone_number "98765-43210" := by
  have h := normalize_phone_number_digits_and_idem "98765-43210"
  exact ⟨h.1 '9' (by decide), h.2⟩
